import Mathlib

/-!
Verification of the push-event handler in src/sw.js.

The handler (lines 2-9 of src/sw.js) reads, per push event:

  const data = event.data ? event.data.json()
                          : (obj with title "Market Alert", body "New Signal Detected!");
  const options = (body := data.body, icon := URL, badge := URL);
  event.waitUntil(self.registration.showNotification(data.title, options));

We embed the JavaScript values the handler manipulates, the semantics of
property access (which throws a TypeError on null or undefined receivers),
the push-event payload (whose .json() method either returns the parsed
value or throws a parse error), and the handler itself as a function from
a push event to an outcome recording every showNotification call, every
waitUntil call, and whether the handler returned normally or threw.
-/

namespace SW

/-- A JavaScript value as far as the handler can observe one: the values
JSON.parse can return (null, booleans, numbers, strings, arrays, plain
objects) plus undefined, which property access on an object can produce.
Object fields model the already-constructed object, so keys are distinct
and lookup of the first match is the JavaScript field read. -/
inductive JSVal where
  | undefined : JSVal
  | null : JSVal
  | bool : Bool → JSVal
  | num : Int → JSVal
  | str : String → JSVal
  | arr : List JSVal → JSVal
  | obj : List (String × JSVal) → JSVal

/-- The two kinds of exceptions the handler can encounter: the parse error
thrown by event.data.json() on malformed payload text, and the TypeError
thrown by reading a property of null or undefined. -/
inductive JSError where
  | parseError : JSError
  | typeError : JSError
deriving DecidableEq

/-- JavaScript property access for the two property names the handler
reads. On null or undefined the access throws a TypeError; on an object it
returns the field value, or undefined when the field is absent; on the
remaining primitives and on arrays the names title and body are absent, so
the access yields undefined. -/
def JSVal.getProp : JSVal → String → Except JSError JSVal
  | JSVal.undefined, _ => Except.error JSError.typeError
  | JSVal.null, _ => Except.error JSError.typeError
  | JSVal.obj fields, name => Except.ok ((fields.lookup name).getD JSVal.undefined)
  | _, _ => Except.ok JSVal.undefined

/-- The data member of a push event. Its .json() method parses the raw
payload text: either the text is valid JSON and the parsed value is
returned, or the parse throws. -/
inductive PushMessageData where
  | wellFormed : JSVal → PushMessageData
  | malformed : PushMessageData

/-- The .json() method of a push-event data object: returns the parsed
value for well-formed payload text and throws a parse error otherwise. -/
def PushMessageData.json : PushMessageData → Except JSError JSVal
  | PushMessageData.wellFormed v => Except.ok v
  | PushMessageData.malformed => Except.error JSError.parseError

/-- A push event as the handler sees it: an optional payload (event.data
is null when the push carried no payload, and null is falsy), plus a
timeStamp standing for the event attributes the handler never reads. -/
structure PushEvent where
  data : Option PushMessageData
  timeStamp : Nat

/-- The fixed icon and badge URL hard-coded at lines 6-7 of src/sw.js. -/
def iconURL : String := "https://cdn-icons-png.flaticon.com/512/2464/2464402.png"

/-- The default notification data substituted at line 3 of src/sw.js when
the event carries no payload. -/
def defaultData : JSVal :=
  JSVal.obj [("title", JSVal.str "Market Alert"), ("body", JSVal.str "New Signal Detected!")]

/-- The options object built at lines 4-8 of src/sw.js. -/
structure NotificationOptions where
  body : JSVal
  icon : String
  badge : String

/-- One call to self.registration.showNotification: the positional title
argument and the options record. -/
structure ShowNotificationCall where
  title : JSVal
  options : NotificationOptions

/-- The observable outcome of one run of the handler: the
showNotification calls issued, the waitUntil calls issued (each recorded
as the display request whose promise was passed), and the result of the
handler body, which is the returned value (undefined, since the function
body has no return statement) on normal completion or the exception when
the body throws. -/
structure PushOutcome where
  shown : List ShowNotificationCall
  waited : List ShowNotificationCall
  result : Except JSError JSVal

/-- Line 3 of src/sw.js: const data = event.data ? event.data.json() :
(default title and body). Evaluates to the derived notification data, or
to the exception when .json() throws. -/
def deriveData (event : PushEvent) : Except JSError JSVal :=
  match event.data with
  | some d => d.json
  | none => Except.ok defaultData

/-- The push handler, lines 2-9 of src/sw.js. The body evaluates line 3
(which can throw a parse error), then data.body on line 5 (which throws a
TypeError when data is null), builds the options object, then on line 9
evaluates data.title, calls showNotification with the title and options,
and passes the returned promise to event.waitUntil. An exception aborts
the body before any later step, so a throwing run issues no
showNotification call and no waitUntil call. -/
def onPush (event : PushEvent) : PushOutcome :=
  match deriveData event with
  | Except.error e => ⟨[], [], Except.error e⟩
  | Except.ok data =>
    match data.getProp "body" with
    | Except.error e => ⟨[], [], Except.error e⟩
    | Except.ok body =>
      let options : NotificationOptions := ⟨body, iconURL, iconURL⟩
      match data.getProp "title" with
      | Except.error e => ⟨[], [], Except.error e⟩
      | Except.ok title =>
        let call : ShowNotificationCall := ⟨title, options⟩
        ⟨[call], [call], Except.ok JSVal.undefined⟩

/-- Helper: on a payload that parses to an object, the handler completes
normally and shows exactly one notification whose title and body come
straight from field lookup, with undefined as the absent-field value. -/
theorem onPush_obj (e : PushEvent) (fs : List (String × JSVal))
    (h : e.data = some (PushMessageData.wellFormed (JSVal.obj fs))) :
    onPush e =
      ⟨[⟨(fs.lookup "title").getD JSVal.undefined,
         ⟨(fs.lookup "body").getD JSVal.undefined, iconURL, iconURL⟩⟩],
       [⟨(fs.lookup "title").getD JSVal.undefined,
         ⟨(fs.lookup "body").getD JSVal.undefined, iconURL, iconURL⟩⟩],
       Except.ok JSVal.undefined⟩ := by
  simp [onPush, deriveData, h, PushMessageData.json, JSVal.getProp]

/-- C1: for every push event whose payload parses as a JSON object with
string fields title T and body B, the notification-display request issued
by onPush carries title T and an options record whose body field is B. -/
theorem push_json_payload_shows_title_and_body
    (e : PushEvent) (fs : List (String × JSVal)) (T B : String)
    (h : e.data = some (PushMessageData.wellFormed (JSVal.obj fs)))
    (hT : fs.lookup "title" = some (JSVal.str T))
    (hB : fs.lookup "body" = some (JSVal.str B)) :
    onPush e =
      ⟨[⟨JSVal.str T, ⟨JSVal.str B, iconURL, iconURL⟩⟩],
       [⟨JSVal.str T, ⟨JSVal.str B, iconURL, iconURL⟩⟩],
       Except.ok JSVal.undefined⟩ := by
  rw [onPush_obj e fs h, hT, hB]
  rfl

/-- Witness for C1: the concrete scenario of the spec, payload
(title "BTC Alert", body "Price crossed $50k"). -/
theorem push_json_payload_shows_title_and_body_witness :
    onPush ⟨some (PushMessageData.wellFormed (JSVal.obj
        [("title", JSVal.str "BTC Alert"), ("body", JSVal.str "Price crossed $50k")])), 7⟩ =
      ⟨[⟨JSVal.str "BTC Alert", ⟨JSVal.str "Price crossed $50k", iconURL, iconURL⟩⟩],
       [⟨JSVal.str "BTC Alert", ⟨JSVal.str "Price crossed $50k", iconURL, iconURL⟩⟩],
       Except.ok JSVal.undefined⟩ :=
  push_json_payload_shows_title_and_body _ _ "BTC Alert" "Price crossed $50k" rfl rfl rfl

/-- C2: for every push event that carries no payload, the notification
shown has title "Market Alert" and options body "New Signal Detected!". -/
theorem push_no_payload_shows_defaults (e : PushEvent) (h : e.data = none) :
    onPush e =
      ⟨[⟨JSVal.str "Market Alert", ⟨JSVal.str "New Signal Detected!", iconURL, iconURL⟩⟩],
       [⟨JSVal.str "Market Alert", ⟨JSVal.str "New Signal Detected!", iconURL, iconURL⟩⟩],
       Except.ok JSVal.undefined⟩ := by
  simp [onPush, deriveData, h, defaultData, JSVal.getProp]
  rfl

/-- Witness for C2 at the concrete event with absent data. -/
theorem push_no_payload_shows_defaults_witness :
    onPush ⟨none, 0⟩ =
      ⟨[⟨JSVal.str "Market Alert", ⟨JSVal.str "New Signal Detected!", iconURL, iconURL⟩⟩],
       [⟨JSVal.str "Market Alert", ⟨JSVal.str "New Signal Detected!", iconURL, iconURL⟩⟩],
       Except.ok JSVal.undefined⟩ :=
  push_no_payload_shows_defaults ⟨none, 0⟩ rfl

/-- C3: for every push event whose payload is present but is not valid
JSON, the parse failure propagates out of the handler uncaught, the
default data is not substituted, and no notification-display request is
issued. -/
theorem push_malformed_payload_propagates (e : PushEvent)
    (h : e.data = some PushMessageData.malformed) :
    onPush e = ⟨[], [], Except.error JSError.parseError⟩ := by
  simp [onPush, deriveData, h, PushMessageData.json]

/-- Witness for C3 at a concrete event with malformed payload. -/
theorem push_malformed_payload_propagates_witness :
    onPush ⟨some PushMessageData.malformed, 3⟩ = ⟨[], [], Except.error JSError.parseError⟩ :=
  push_malformed_payload_propagates ⟨some PushMessageData.malformed, 3⟩ rfl

/-- Counterexample to C4: at the concrete event whose payload parses to
the empty JSON object, the handler completes and the derived data has
undefined title and undefined body, so the derived notification data does
not always have defined title and body fields. -/
theorem derived_data_undefined_fields_counterexample :
    deriveData ⟨some (PushMessageData.wellFormed (JSVal.obj [])), 0⟩ =
        Except.ok (JSVal.obj []) ∧
      (JSVal.obj []).getProp "title" = Except.ok JSVal.undefined ∧
      (JSVal.obj []).getProp "body" = Except.ok JSVal.undefined ∧
      onPush ⟨some (PushMessageData.wellFormed (JSVal.obj [])), 0⟩ =
        ⟨[⟨JSVal.undefined, ⟨JSVal.undefined, iconURL, iconURL⟩⟩],
         [⟨JSVal.undefined, ⟨JSVal.undefined, iconURL, iconURL⟩⟩],
         Except.ok JSVal.undefined⟩ :=
  ⟨rfl, rfl, rfl, rfl⟩

/-- C4 as amended: the derived notification data has defined title and
body exactly as far as the fallback reaches. When the event carries no
payload, the defaults give defined string title and body; when the
payload parses to an object, each field is whatever lookup finds, with
undefined substituted for an absent field, so an object payload omitting
a field yields an undefined field rather than a default. -/
theorem derived_data_fields_amended (e : PushEvent) :
    (e.data = none →
      onPush e =
        ⟨[⟨JSVal.str "Market Alert", ⟨JSVal.str "New Signal Detected!", iconURL, iconURL⟩⟩],
         [⟨JSVal.str "Market Alert", ⟨JSVal.str "New Signal Detected!", iconURL, iconURL⟩⟩],
         Except.ok JSVal.undefined⟩) ∧
    (∀ fs : List (String × JSVal),
      e.data = some (PushMessageData.wellFormed (JSVal.obj fs)) →
      onPush e =
        ⟨[⟨(fs.lookup "title").getD JSVal.undefined,
           ⟨(fs.lookup "body").getD JSVal.undefined, iconURL, iconURL⟩⟩],
         [⟨(fs.lookup "title").getD JSVal.undefined,
           ⟨(fs.lookup "body").getD JSVal.undefined, iconURL, iconURL⟩⟩],
         Except.ok JSVal.undefined⟩) := by
  constructor
  · intro h
    simp [onPush, deriveData, h, defaultData, JSVal.getProp]
    rfl
  · intro fs h
    exact onPush_obj e fs h

/-- Witness for C4 as amended, combining the no-payload case with an
object payload that has only a body field. -/
theorem derived_data_fields_amended_witness :
    onPush ⟨none, 1⟩ =
      ⟨[⟨JSVal.str "Market Alert", ⟨JSVal.str "New Signal Detected!", iconURL, iconURL⟩⟩],
       [⟨JSVal.str "Market Alert", ⟨JSVal.str "New Signal Detected!", iconURL, iconURL⟩⟩],
       Except.ok JSVal.undefined⟩ ∧
    onPush ⟨some (PushMessageData.wellFormed (JSVal.obj [("body", JSVal.str "hi")])), 1⟩ =
      ⟨[⟨JSVal.undefined, ⟨JSVal.str "hi", iconURL, iconURL⟩⟩],
       [⟨JSVal.undefined, ⟨JSVal.str "hi", iconURL, iconURL⟩⟩],
       Except.ok JSVal.undefined⟩ :=
  ⟨(derived_data_fields_amended ⟨none, 1⟩).1 rfl,
   (derived_data_fields_amended
      ⟨some (PushMessageData.wellFormed (JSVal.obj [("body", JSVal.str "hi")])), 1⟩).2
      [("body", JSVal.str "hi")] rfl⟩

/-- Counterexample to C5: at the concrete event with a malformed payload
the handler throws and issues no notification-display request, so it is
not the case that every received push event leads to exactly one
showNotification call. -/
theorem one_show_per_event_counterexample :
    onPush ⟨some PushMessageData.malformed, 0⟩ =
        ⟨[], [], Except.error JSError.parseError⟩ ∧
      ((onPush ⟨some PushMessageData.malformed, 0⟩).shown.length = 1 → False) :=
  ⟨rfl, fun h => by simp [onPush, deriveData, PushMessageData.json] at h⟩

/-- C5 as amended: on every push event the handler either throws and
issues no notification-display request, or completes normally, returns
undefined (no value), and issues exactly one notification-display
request. -/
theorem one_show_per_event_amended (e : PushEvent) :
    ((∃ er, (onPush e).result = Except.error er) ∧ (onPush e).shown = []) ∨
    ((onPush e).result = Except.ok JSVal.undefined ∧ (onPush e).shown.length = 1) := by
  obtain ⟨d, ts⟩ := e
  match d with
  | none =>
    right
    constructor <;> rfl
  | some PushMessageData.malformed =>
    left
    exact ⟨⟨JSError.parseError, rfl⟩, rfl⟩
  | some (PushMessageData.wellFormed v) =>
    match v with
    | JSVal.undefined => left; exact ⟨⟨JSError.typeError, rfl⟩, rfl⟩
    | JSVal.null => left; exact ⟨⟨JSError.typeError, rfl⟩, rfl⟩
    | JSVal.bool b => right; constructor <;> rfl
    | JSVal.num n => right; constructor <;> rfl
    | JSVal.str s => right; constructor <;> rfl
    | JSVal.arr xs => right; constructor <;> rfl
    | JSVal.obj fs => right; constructor <;> rfl

/-- C6: every notification-display request issued by onPush carries an
options record whose icon and badge both equal the fixed constant URL,
regardless of the payload. -/
theorem shown_icon_badge_constant (e : PushEvent) (c : ShowNotificationCall)
    (h : c ∈ (onPush e).shown) :
    c.options.icon = iconURL ∧ c.options.badge = iconURL := by
  unfold onPush at h
  split at h
  · simp at h
  · split at h
    · simp at h
    · split at h
      · simp at h
      · simp at h
        subst h
        exact ⟨rfl, rfl⟩

/-- Witness for C6 at a concrete event whose payload sets its own title,
body, icon and badge fields. -/
theorem shown_icon_badge_constant_witness :
    (⟨JSVal.str "t", ⟨JSVal.str "b", iconURL, iconURL⟩⟩ : ShowNotificationCall) ∈
      (onPush ⟨some (PushMessageData.wellFormed (JSVal.obj
        [("title", JSVal.str "t"), ("body", JSVal.str "b"),
         ("icon", JSVal.str "x"), ("badge", JSVal.str "y")])), 2⟩).shown ∧
    (⟨JSVal.str "t", ⟨JSVal.str "b", iconURL, iconURL⟩⟩ :
        ShowNotificationCall).options.icon = iconURL ∧
    (⟨JSVal.str "t", ⟨JSVal.str "b", iconURL, iconURL⟩⟩ :
        ShowNotificationCall).options.badge = iconURL := by
  refine ⟨by simp [onPush, deriveData, PushMessageData.json, JSVal.getProp, List.lookup], ?_⟩
  exact shown_icon_badge_constant
    ⟨some (PushMessageData.wellFormed (JSVal.obj
      [("title", JSVal.str "t"), ("body", JSVal.str "b"),
       ("icon", JSVal.str "x"), ("badge", JSVal.str "y")])), 2⟩
    ⟨JSVal.str "t", ⟨JSVal.str "b", iconURL, iconURL⟩⟩
    (by simp [onPush, deriveData, PushMessageData.json, JSVal.getProp, List.lookup])

/-- Counterexample to C7: at the concrete event with a malformed payload
the handler throws before line 9, so event.waitUntil is called zero
times, not exactly once. -/
theorem one_wait_per_event_counterexample :
    (onPush ⟨some PushMessageData.malformed, 5⟩).waited = [] ∧
      ((onPush ⟨some PushMessageData.malformed, 5⟩).waited.length = 1 → False) :=
  ⟨rfl, fun h => by simp [onPush, deriveData, PushMessageData.json] at h⟩

/-- C7 as amended: on every push event the handler either throws and
never reaches event.waitUntil, or completes normally and calls
event.waitUntil exactly once, passing the promise returned by the single
notification-display request it issued. -/
theorem one_wait_per_event_amended (e : PushEvent) :
    ((∃ er, (onPush e).result = Except.error er) ∧ (onPush e).waited = []) ∨
    ((onPush e).result = Except.ok JSVal.undefined ∧
      ∃ c, (onPush e).shown = [c] ∧ (onPush e).waited = [c]) := by
  obtain ⟨d, ts⟩ := e
  match d with
  | none =>
    right
    exact ⟨rfl, _, rfl, rfl⟩
  | some PushMessageData.malformed =>
    left
    exact ⟨⟨JSError.parseError, rfl⟩, rfl⟩
  | some (PushMessageData.wellFormed v) =>
    match v with
    | JSVal.undefined => left; exact ⟨⟨JSError.typeError, rfl⟩, rfl⟩
    | JSVal.null => left; exact ⟨⟨JSError.typeError, rfl⟩, rfl⟩
    | JSVal.bool b => right; exact ⟨rfl, _, rfl, rfl⟩
    | JSVal.num n => right; exact ⟨rfl, _, rfl, rfl⟩
    | JSVal.str s => right; exact ⟨rfl, _, rfl, rfl⟩
    | JSVal.arr xs => right; exact ⟨rfl, _, rfl, rfl⟩
    | JSVal.obj fs => right; exact ⟨rfl, _, rfl, rfl⟩

/-- C8: when the payload parses to an object lacking the title field
(respectively the body field), the notification-display request is still
issued, with undefined in place of the missing title (respectively an
options record whose body is undefined); the defaults are not applied per
field. -/
theorem missing_field_yields_undefined (e : PushEvent) (fs : List (String × JSVal))
    (h : e.data = some (PushMessageData.wellFormed (JSVal.obj fs))) :
    (fs.lookup "title" = none →
      onPush e =
        ⟨[⟨JSVal.undefined, ⟨(fs.lookup "body").getD JSVal.undefined, iconURL, iconURL⟩⟩],
         [⟨JSVal.undefined, ⟨(fs.lookup "body").getD JSVal.undefined, iconURL, iconURL⟩⟩],
         Except.ok JSVal.undefined⟩) ∧
    (fs.lookup "body" = none →
      onPush e =
        ⟨[⟨(fs.lookup "title").getD JSVal.undefined, ⟨JSVal.undefined, iconURL, iconURL⟩⟩],
         [⟨(fs.lookup "title").getD JSVal.undefined, ⟨JSVal.undefined, iconURL, iconURL⟩⟩],
         Except.ok JSVal.undefined⟩) := by
  constructor
  · intro hT
    rw [onPush_obj e fs h, hT]
    rfl
  · intro hB
    rw [onPush_obj e fs h, hB]
    rfl

/-- Witness for C8 at the empty-object payload, where both fields are
missing and the shown notification has undefined title and undefined
options body. -/
theorem missing_field_yields_undefined_witness :
    onPush ⟨some (PushMessageData.wellFormed (JSVal.obj [])), 4⟩ =
      ⟨[⟨JSVal.undefined, ⟨JSVal.undefined, iconURL, iconURL⟩⟩],
       [⟨JSVal.undefined, ⟨JSVal.undefined, iconURL, iconURL⟩⟩],
       Except.ok JSVal.undefined⟩ :=
  (missing_field_yields_undefined
    ⟨some (PushMessageData.wellFormed (JSVal.obj [])), 4⟩ [] rfl).1 rfl

/-- C9: for the push event whose payload is the valid JSON text null, the
value is not an object, reading data.body on line 5 throws a TypeError,
and the handler issues neither a notification-display request nor a
waitUntil call. -/
theorem non_object_payload_throws :
    onPush ⟨some (PushMessageData.wellFormed JSVal.null), 0⟩ =
      ⟨[], [], Except.error JSError.typeError⟩ :=
  rfl

/-- C10: the handler is deterministic in the payload. Two events carrying
equal payloads (or both carrying none) produce identical outcomes, in
particular identical shown titles and identical options, whatever their
other attributes. -/
theorem onPush_deterministic_in_payload (e₁ e₂ : PushEvent) (h : e₁.data = e₂.data) :
    onPush e₁ = onPush e₂ := by
  unfold onPush deriveData
  rw [h]

/-- Witness for C10: two events with the same payload but different
timestamps give the same outcome. -/
theorem onPush_deterministic_in_payload_witness :
    onPush ⟨some (PushMessageData.wellFormed (JSVal.obj [("title", JSVal.str "t")])), 0⟩ =
      onPush ⟨some (PushMessageData.wellFormed (JSVal.obj [("title", JSVal.str "t")])), 9⟩ :=
  onPush_deterministic_in_payload
    ⟨some (PushMessageData.wellFormed (JSVal.obj [("title", JSVal.str "t")])), 0⟩
    ⟨some (PushMessageData.wellFormed (JSVal.obj [("title", JSVal.str "t")])), 9⟩
    rfl

end SW
